import Mathlib

/-!
# Verification of `copy_postgres_table_data.py`

A shallow embedding of the Postgres table-copy script
`src/postgresdb/copy_postgres_table_data/copy_postgres_table_data.py`.

The script's pure logic (config lookup, schema comparison, SQL-string
construction) is translated directly.  Its effectful collaborators (the
psycopg2 driver and the two databases) are modelled at their interface:
a database is an association list of named tables, a connection attempt
and an engine-level insert either succeed or fail according to oracle
booleans carried in the `World`, the driver's transactional contract is
that a committed batch appends all rows and a rolled-back batch appends
none, and every observable driver call (connection attempt, statement
execution, commit, rollback, close attempt) is recorded in an event
trace so that ordering/absence properties can be stated.
-/

namespace CopyTable

/-- One section of the `db_config.ini` configuration store: a section
name and its key/value entries (the shape `configparser` exposes). -/
structure Sect where
  name : String
  entries : List (String × String)
deriving DecidableEq

/-- Key lookup inside a section, first match wins (dict-like). -/
def Sect.find (s : Sect) (k : String) : Option String :=
  (s.entries.find? (fun e => e.1 == k)).map (fun e => e.2)

/-- Python's `key in cfg`. -/
def Sect.hasKey (s : Sect) (k : String) : Bool :=
  (s.find k).isSome

/-- Python's `cfg[key]` on a section already validated to hold `key`. -/
def Sect.get (s : Sect) (k : String) : String :=
  (s.find k).getD ""

/-- Which side of the copy a connection belongs to. -/
inductive Side where
  | src
  | tgt
deriving DecidableEq

/-- The error taxonomy of the script: each constructor corresponds to one
`raise`/exception site of the Python source. -/
inductive CopyErr where
  | configNotFound (env : String)
  | configMissingKey (key env : String)
  | tableNameMismatch
  | connectionFailed (s : Side)
  | fetchFailed (table : String)
  | schemaMismatch (srcCols destCols : List String)
  | insertFailed (table : String)
deriving DecidableEq

/-- `required_keys` of `load_db_config`. -/
def required_keys : List String :=
  ["host", "database", "user", "password", "table"]

/-- `load_db_config(env)`: look the section up, then check the required
keys in order, raising on the first missing one; the found section is the
returned profile.  (`configparser`'s store is the `store` argument.) -/
def load_db_config (store : List Sect) (env : String) : Except CopyErr Sect :=
  match store.find? (fun s => s.name == env) with
  | none => .error (.configNotFound env)
  | some cfg =>
    match required_keys.find? (fun k => ! cfg.hasKey k) with
    | some k => .error (.configMissingKey k env)
    | none => .ok cfg

/-- `validate_schemas(src_cols, dest_cols)`: raise iff the two ordered
column-name lists are unequal. -/
def validate_schemas (src_cols dest_cols : List String) : Except CopyErr Unit :=
  if src_cols ≠ dest_cols then .error (.schemaMismatch src_cols dest_cols)
  else .ok ()

/-- Python's `','.join`, structurally recursive. -/
def join_comma : List String → String
  | [] => ""
  | [s] => s
  | s :: rest => s ++ "," ++ join_comma rest

/-- `col_list` of `insert_table_data`: each column name double-quoted,
comma-joined. -/
def col_list (colnames : List String) : String :=
  join_comma (colnames.map (fun c => "\"" ++ c ++ "\""))

/-- `placeholders` of `insert_table_data`: one `%s` per column. -/
def placeholders (colnames : List String) : String :=
  join_comma (List.replicate colnames.length "%s")

/-- The `insert_sql` statement text built by `insert_table_data`. -/
def insert_sql (table : String) (colnames : List String) : String :=
  "INSERT INTO " ++ table ++ " (" ++ col_list colnames ++ ") VALUES ("
    ++ placeholders colnames ++ ")"

/-- A table as the copy logic sees it: ordered column names and rows of
positional cell values (cells are opaque to the script, hence `α`). -/
structure Table (α : Type) where
  columns : List String
  rows : List (List α)
deriving DecidableEq

/-- A database reached through one connection: named tables. -/
abbrev DB (α : Type) := List (String × Table α)

/-- Observable driver calls, in order of occurrence. -/
inductive Ev (α : Type) where
  | connAttempt (s : Side) (ok : Bool)
  | execMany (sql : String) (rows : List (List α))
  | commit
  | rollback
  | closeAttempt (s : Side) (ok : Bool)
  | closeUnbound (s : Side)
deriving DecidableEq

/-- `fetch_table_data(conn, table)`: full-table scan returning the ordered
column names and all rows; any cursor failure (modelled: the table is
absent) raises. -/
def fetch_table_data (db : DB α) (table : String) :
    Except CopyErr (List String × List (List α)) :=
  match db.find? (fun e => e.1 == table) with
  | none => .error (.fetchFailed table)
  | some e => .ok (e.2.columns, e.2.rows)

/-- The driver-level effect of a committed bulk insert: the named table
gains the new rows at the end, in order; other tables untouched. -/
def appendRows (db : DB α) (table : String) (newRows : List (List α)) : DB α :=
  db.map (fun e =>
    if e.1 == table then (e.1, Table.mk e.2.columns (e.2.rows ++ newRows)) else e)

/-- `insert_table_data(conn, table, colnames, rows)`.  Empty `rows`
returns `0` before any cursor is opened.  Otherwise one `executemany` of
`insert_sql` over all rows runs; `insertOk` is the engine's verdict on
the batch: on success the transaction commits (all rows appended), on
failure the except-branch rolls back (no rows appended) and re-raises.
Result: (return value or error, destination database after, events). -/
def insert_table_data (insertOk : Bool) (db : DB α) (table : String)
    (colnames : List String) (rows : List (List α)) :
    Except CopyErr Nat × DB α × List (Ev α) :=
  if rows.isEmpty then (.ok 0, db, [])
  else if insertOk then
    (.ok rows.length, appendRows db table rows,
      [.execMany (insert_sql table colnames) rows, .commit])
  else
    (.error (.insertFailed table), db,
      [.execMany (insert_sql table colnames) rows, .rollback])

/-- The external world `main` runs against: the configuration store, the
two databases its two connections reach, and oracle booleans for the
outcomes of the effectful driver calls (connection attempts, the engine's
acceptance of the bulk insert, the two close calls). -/
structure World (α : Type) where
  store : List Sect
  srcConnOk : Bool
  tgtConnOk : Bool
  srcDB : DB α
  tgtDB : DB α
  insertOk : Bool
  srcCloseOk : Bool
  tgtCloseOk : Bool
deriving DecidableEq

/-- Process-level result of `main`: `usage` is the `sys.exit(1)` path,
`ok n` the normal return after inserting `n` rows, `err e` the
`sys.exit(2)` path reporting `e`. -/
inductive Outcome where
  | usage
  | ok (inserted : Nat)
  | err (e : CopyErr)
deriving DecidableEq

/-- The process exit status for each outcome (`sys.exit(1)`, implicit 0,
`sys.exit(2)`). -/
def exit_code : Outcome → Nat
  | .usage => 1
  | .ok _ => 0
  | .err _ => 2

/-- Result of the `try:` block of `main`: the computed value or the
caught exception, whether each connection variable got bound, the target
database afterwards, and the driver events so far. -/
structure TryResult (α : Type) where
  result : Except CopyErr Nat
  srcBound : Bool
  tgtBound : Bool
  tgtDB : DB α
  events : List (Ev α)

/-- The `try:` block of `main`, statement by statement: resolve both
configs, compare table names, open the two connections, fetch source
data, fetch target columns, validate schemas, insert.  The first raise
aborts the rest (Except-style), recording which connections were bound. -/
def try_block (w : World α) (source_env target_env : String) : TryResult α :=
  match load_db_config w.store source_env with
  | .error e => ⟨.error e, false, false, w.tgtDB, []⟩
  | .ok src_cfg =>
  match load_db_config w.store target_env with
  | .error e => ⟨.error e, false, false, w.tgtDB, []⟩
  | .ok tgt_cfg =>
  if src_cfg.get "table" ≠ tgt_cfg.get "table" then
    ⟨.error .tableNameMismatch, false, false, w.tgtDB, []⟩
  else if ¬ w.srcConnOk then
    ⟨.error (.connectionFailed .src), false, false, w.tgtDB,
      [.connAttempt .src false]⟩
  else if ¬ w.tgtConnOk then
    ⟨.error (.connectionFailed .tgt), true, false, w.tgtDB,
      [.connAttempt .src true, .connAttempt .tgt false]⟩
  else
  match fetch_table_data w.srcDB (src_cfg.get "table") with
  | .error e => ⟨.error e, true, true, w.tgtDB,
      [.connAttempt .src true, .connAttempt .tgt true]⟩
  | .ok (src_cols, src_rows) =>
  match fetch_table_data w.tgtDB (tgt_cfg.get "table") with
  | .error e => ⟨.error e, true, true, w.tgtDB,
      [.connAttempt .src true, .connAttempt .tgt true]⟩
  | .ok (tgt_cols, _) =>
  match validate_schemas src_cols tgt_cols with
  | .error e => ⟨.error e, true, true, w.tgtDB,
      [.connAttempt .src true, .connAttempt .tgt true]⟩
  | .ok _ =>
    let r := insert_table_data w.insertOk w.tgtDB (tgt_cfg.get "table")
      tgt_cols src_rows
    ⟨r.1, true, true, r.2.1,
      [.connAttempt .src true, .connAttempt .tgt true] ++ r.2.2⟩

/-- One guarded close of the `finally:` block: a bound connection gets
one close call (whose own failure the bare `except: pass` swallows); an
unbound variable raises `NameError`, equally swallowed — no close call
happens. -/
def close_events (bound closeOk : Bool) (s : Side) : List (Ev α) :=
  if bound then [.closeAttempt s closeOk] else [.closeUnbound s]

/-- The `finally:` block: the two independently guarded closes, source
then target; it never raises and runs on every exit path of the try. -/
def teardown (srcBound tgtBound srcCloseOk tgtCloseOk : Bool) : List (Ev α) :=
  close_events srcBound srcCloseOk .src ++ close_events tgtBound tgtCloseOk .tgt

/-- Python's `str.lower()`: lower-case the string character by
character. -/
def str_lower (s : String) : String :=
  String.mk (s.data.map Char.toLower)

/-- `main()`: with any argument count other than `len(sys.argv) == 3` it
prints usage and exits 1 before the try (no teardown).  Otherwise the
environment names are lower-cased, the try-block runs, the finally-block
always runs after it, and the process reports the try's result: normal
return (exit 0) or `sys.exit(2)` with the caught error. -/
def main (w : World α) (argv : List String) :
    Outcome × World α × List (Ev α) :=
  match argv with
  | [_, a1, a2] =>
    let r := try_block w (str_lower a1) (str_lower a2)
    let evs := r.events ++ teardown r.srcBound r.tgtBound w.srcCloseOk w.tgtCloseOk
    let w2 := { w with tgtDB := r.tgtDB }
    match r.result with
    | .ok n => (.ok n, w2, evs)
    | .error e => (.err e, w2, evs)
  | _ => (.usage, w, [])

/-- Does an event record a successful connection open on side `s`? -/
def is_open (s : Side) : Ev α → Bool
  | .connAttempt s2 ok => s2 == s && ok
  | _ => false

/-- Does an event record any connection attempt at all? -/
def is_conn : Ev α → Bool
  | .connAttempt _ _ => true
  | _ => false

/-- Does an event record a close call on side `s`? -/
def is_close (s : Side) : Ev α → Bool
  | .closeAttempt s2 _ => s2 == s
  | _ => false

/-- Does an event record a teardown visit (close call or swallowed
unbound reference) of side `s`? -/
def is_teardown_visit (s : Side) : Ev α → Bool
  | .closeAttempt s2 _ => s2 == s
  | .closeUnbound s2 => s2 == s
  | _ => false

/-! ## Basic lemmas -/

theorem appendRows_nil (db : DB α) (t : String) : appendRows db t [] = db := by
  simp [appendRows]

theorem insert_ok_fst (db : DB α) (t : String) (c : List String)
    (rows : List (List α)) :
    (insert_table_data true db t c rows).1 = .ok rows.length := by
  unfold insert_table_data
  by_cases h : rows.isEmpty <;> simp_all [List.isEmpty_iff]

theorem insert_ok_db (db : DB α) (t : String) (c : List String)
    (rows : List (List α)) :
    (insert_table_data true db t c rows).2.1 = appendRows db t rows := by
  unfold insert_table_data
  by_cases h : rows.isEmpty <;> simp_all [List.isEmpty_iff, appendRows_nil]

theorem fetch_cons_pos (nm : String) (tb : Table α) (db : DB α) (t : String)
    (h : (nm == t) = true) :
    fetch_table_data ((nm, tb) :: db) t = .ok (tb.columns, tb.rows) := by
  simp [fetch_table_data, List.find?_cons, h]

theorem fetch_cons_neg (nm : String) (tb : Table α) (db : DB α) (t : String)
    (h : (nm == t) = false) :
    fetch_table_data ((nm, tb) :: db) t = fetch_table_data db t := by
  simp [fetch_table_data, List.find?_cons, h]

theorem appendRows_cons (nm : String) (tb : Table α) (db : DB α) (t : String)
    (new : List (List α)) :
    appendRows ((nm, tb) :: db) t new =
      (if nm == t then (nm, Table.mk tb.columns (tb.rows ++ new)) else (nm, tb))
        :: appendRows db t new := rfl

theorem fetch_appendRows (db : DB α) (t : String) (cols : List String)
    (rows new : List (List α))
    (h : fetch_table_data db t = .ok (cols, rows)) :
    fetch_table_data (appendRows db t new) t = .ok (cols, rows ++ new) := by
  induction db with
  | nil => simp [fetch_table_data, List.find?] at h
  | cons e db ih =>
    rcases e with ⟨nm, tb⟩
    by_cases he : (nm == t) = true
    · rw [fetch_cons_pos nm tb db t he] at h
      rw [appendRows_cons, if_pos he, fetch_cons_pos]
      · simp only [Except.ok.injEq, Prod.mk.injEq] at h ⊢
        exact ⟨h.1, by rw [h.2]⟩
      · exact he
    · have he2 : (nm == t) = false := by simpa using he
      rw [fetch_cons_neg nm tb db t he2] at h
      rw [appendRows_cons, if_neg (by simp [he2]), fetch_cons_neg nm tb _ t he2]
      exact ih h

/-! ## Claim theorems: component level -/

/-- C3: `validate_schemas` raises `SchemaMismatch` exactly when the two
ordered column-name lists are unequal (any difference in count, name or
order), and accepts exactly the equal pairs — including two empty
sequences. -/
theorem validate_schemas_exact_equality (src dest : List String) :
    (validate_schemas src dest = .error (.schemaMismatch src dest) ↔ src ≠ dest) ∧
    (validate_schemas src dest = .ok () ↔ src = dest) ∧
    validate_schemas [] [] = .ok () := by
  unfold validate_schemas
  by_cases h : src = dest <;> simp [h]

/-- C6: calling the writer with an empty row sequence returns `0` and has
no effect: the destination database is unchanged and the event trace is
empty — no statement, no commit, no rollback, no transaction. -/
theorem write_empty_rows_noop (insertOk : Bool) (db : DB α) (table : String)
    (cols : List String) :
    insert_table_data insertOk db table cols [] = (.ok 0, db, []) ∧
    ∀ e ∈ (insert_table_data insertOk db table cols []).2.2,
      e ≠ Ev.commit ∧ e ≠ Ev.rollback := by
  refine ⟨rfl, ?_⟩
  intro e he
  simp [insert_table_data] at he

/-- C2: on a non-empty row set, a failing bulk insert rolls back — the
destination database is returned unchanged (none of the fetched rows
committed) and the trace shows the rollback issued before the error
propagates; a succeeding bulk insert commits all fetched rows.  (The
driver's rollback itself is modelled as succeeding.) -/
theorem insert_failure_rolls_back (db : DB α) (table : String)
    (cols : List String) (rows : List (List α)) (hne : rows ≠ []) :
    insert_table_data false db table cols rows =
      (.error (.insertFailed table), db,
        [.execMany (insert_sql table cols) rows, .rollback]) ∧
    (insert_table_data true db table cols rows).2.1 = appendRows db table rows := by
  have h : rows.isEmpty = false := by simp [List.isEmpty_iff, hne]
  unfold insert_table_data
  simp [h, appendRows]

/-- Witness for C2 at a concrete database, table and row set. -/
theorem insert_failure_rolls_back_witness :
    insert_table_data false ([("t", ⟨["id"], [[9]]⟩)] : DB Nat) "t" ["id"] [[1]] =
      (.error (.insertFailed "t"), [("t", ⟨["id"], [[9]]⟩)],
        [.execMany (insert_sql "t" ["id"]) [[1]], .rollback]) :=
  (insert_failure_rolls_back [("t", ⟨["id"], [[9]]⟩)] "t" ["id"] [[1]]
    (by decide)).1

/-- The `dev` section of this store has all five required keys present,
but its `host` value is the empty string. -/
def empty_host_sect : Sect :=
  ⟨"dev", [("host", ""), ("database", "d"), ("user", "u"),
           ("password", "p"), ("table", "t")]⟩

/-- A one-section configuration store exercising an empty field value. -/
def empty_host_store : List Sect := [empty_host_sect]

/-- C4 counterexample: the claim says a section with a present-but-empty
field must be rejected with `ConfigIncomplete`; the code accepts it —
`load_db_config` returns the profile even though `host` is empty. -/
theorem load_db_config_accepts_empty_field :
    empty_host_sect.hasKey "host" = true ∧
    empty_host_sect.get "host" = "" ∧
    load_db_config empty_host_store "dev" = .ok empty_host_sect :=
  ⟨rfl, rfl, rfl⟩

/-- C4 amended: `load_db_config` fails with `ConfigNotFound` when the
named section is absent, fails with `ConfigIncomplete` (the first missing
key, in required order) when one of the five required keys is absent, and
returns the found section as the profile exactly when all five keys are
present — whether or not their values are empty. -/
theorem load_db_config_checks_presence_only (store : List Sect) (env : String) :
    (store.find? (fun s => s.name == env) = none →
      load_db_config store env = .error (.configNotFound env)) ∧
    (∀ cfg, store.find? (fun s => s.name == env) = some cfg →
      (load_db_config store env = .ok cfg ↔
        ∀ k ∈ required_keys, cfg.hasKey k = true)) ∧
    (∀ cfg, store.find? (fun s => s.name == env) = some cfg →
      ∀ k, required_keys.find? (fun k => ! cfg.hasKey k) = some k →
        cfg.hasKey k = false ∧
        load_db_config store env = .error (.configMissingKey k env)) := by
  refine ⟨?_, ?_, ?_⟩
  · intro h
    simp [load_db_config, h]
  · intro cfg h
    simp only [load_db_config, h]
    constructor
    · intro hok k hk
      rcases hfind : required_keys.find? (fun k => ! cfg.hasKey k) with _ | k2
      · have := List.find?_eq_none.mp hfind k hk
        simpa using this
      · simp [hfind] at hok
    · intro hall
      have hfind : required_keys.find? (fun k => ! cfg.hasKey k) = none := by
        apply List.find?_eq_none.mpr
        intro k hk
        simp [hall k hk]
      simp [hfind]
  · intro cfg h k hfind
    have hk := List.find?_some hfind
    simp only [Bool.not_eq_true'] at hk
    refine ⟨hk, ?_⟩
    simp [load_db_config, h, hfind]

/-- Witness for C4's amended statement: a complete section (with an empty
value) resolves, and a store lacking the section fails. -/
theorem load_db_config_checks_presence_only_witness :
    load_db_config empty_host_store "dev" = .ok empty_host_sect ∧
    load_db_config empty_host_store "prod" = .error (.configNotFound "prod") := by
  constructor
  · exact ((load_db_config_checks_presence_only empty_host_store "dev").2.1
      empty_host_sect (by decide)).mpr (by decide)
  · exact (load_db_config_checks_presence_only empty_host_store "prod").1
      (by decide)

/-! ## Reading the generated INSERT statement back

To show the statement text determines the column list (explicit names,
in order) we define an independent extraction — scan to the first `(`,
take up to the first `)`, split on commas, strip the double quotes — and
prove it recovers exactly the columns handed to the writer. -/

/-- Drop everything up to and including the first `(`. -/
def drop_through_lparen : List Char → List Char
  | [] => []
  | c :: rest => if c = '(' then rest else drop_through_lparen rest

/-- Take everything strictly before the first `)`. -/
def take_until_rparen : List Char → List Char
  | [] => []
  | c :: rest => if c = ')' then [] else c :: take_until_rparen rest

/-- Split a character list on commas (a comma-free list is one group). -/
def split_commas : List Char → List (List Char)
  | [] => [[]]
  | c :: rest =>
    if c = ',' then [] :: split_commas rest
    else
      match split_commas rest with
      | [] => [[c]]
      | g :: gs => (c :: g) :: gs

/-- Strip one leading and one trailing double quote. -/
def unquote : List Char → List Char
  | '"' :: rest => rest.dropLast
  | l => l

/-- Recover the explicitly named column list from an INSERT statement. -/
def extract_cols (sql : String) : List String :=
  (split_commas (take_until_rparen (drop_through_lparen sql.data))).map
    (fun g => String.mk (unquote g))

theorem drop_through_lparen_append (a b : List Char) (h : '(' ∉ a) :
    drop_through_lparen (a ++ b) = drop_through_lparen b := by
  induction a with
  | nil => rfl
  | cons c a ih =>
    simp only [List.mem_cons, not_or] at h
    have hc : c ≠ '(' := fun hh => h.1 hh.symm
    simp [drop_through_lparen, hc, ih h.2]

theorem take_until_rparen_append (a b : List Char) (h : ')' ∉ a) :
    take_until_rparen (a ++ ')' :: b) = a := by
  induction a with
  | nil => simp [take_until_rparen]
  | cons c a ih =>
    simp only [List.mem_cons, not_or] at h
    have hc : c ≠ ')' := fun hh => h.1 hh.symm
    simp [take_until_rparen, hc, ih h.2]

theorem split_commas_no_comma (l : List Char) (h : ',' ∉ l) :
    split_commas l = [l] := by
  induction l with
  | nil => rfl
  | cons c l ih =>
    simp only [List.mem_cons, not_or] at h
    have hc : c ≠ ',' := fun hh => h.1 hh.symm
    simp [split_commas, hc, ih h.2]

theorem split_commas_append (a b : List Char) (h : ',' ∉ a) :
    split_commas (a ++ ',' :: b) = a :: split_commas b := by
  induction a with
  | nil => simp [split_commas]
  | cons c a ih =>
    simp only [List.mem_cons, not_or] at h
    have hc : c ≠ ',' := fun hh => h.1 hh.symm
    simp [split_commas, hc, ih h.2]

theorem unquote_quote (c : List Char) : unquote ('"' :: (c ++ ['"'])) = c := by
  simp [unquote]

theorem col_list_data_cons (c c2 : String) (cols : List String) :
    (col_list (c :: c2 :: cols)).data =
      ('"' :: (c.data ++ ['"'])) ++ ',' :: (col_list (c2 :: cols)).data := by
  simp [col_list, List.map_cons, join_comma, String.data_append,
    List.append_assoc]

theorem col_list_data_single (c : String) :
    (col_list [c]).data = '"' :: (c.data ++ ['"']) := by
  simp only [col_list, List.map_cons, List.map_nil, join_comma,
    String.data_append]
  rfl

theorem mem_col_list_data (cols : List String) (x : Char)
    (hx : x ∈ (col_list cols).data) :
    x = '"' ∨ x = ',' ∨ ∃ c ∈ cols, x ∈ c.data := by
  induction cols with
  | nil => simp [col_list, join_comma] at hx
  | cons c cols ih =>
    cases cols with
    | nil =>
      rw [col_list_data_single] at hx
      rcases List.mem_cons.mp hx with h | h
      · left; exact h
      · rcases List.mem_append.mp h with h | h
        · right; right; exact ⟨c, by simp, h⟩
        · left; simpa using h
    | cons c2 cols2 =>
      rw [col_list_data_cons] at hx
      rcases List.mem_append.mp hx with h | h
      · rcases List.mem_cons.mp h with h | h
        · left; exact h
        · rcases List.mem_append.mp h with h | h
          · right; right; exact ⟨c, by simp, h⟩
          · left; simpa using h
      · rcases List.mem_cons.mp h with h | h
        · right; left; exact h
        · rcases ih h with h2 | h2 | ⟨c3, hc3, h3⟩
          · left; exact h2
          · right; left; exact h2
          · right; right; exact ⟨c3, List.mem_cons_of_mem _ hc3, h3⟩

theorem split_commas_col_list (cols : List String) (hne : cols ≠ [])
    (h : ∀ c ∈ cols, ',' ∉ c.data) :
    split_commas (col_list cols).data =
      cols.map (fun c => '"' :: (c.data ++ ['"'])) := by
  induction cols with
  | nil => simp at hne
  | cons c cols ih =>
    have hq : ',' ∉ '"' :: (c.data ++ ['"']) := by
      simp only [List.mem_cons, List.mem_append, List.mem_singleton, not_or]
      exact ⟨by decide, h c (by simp), by decide⟩
    cases cols with
    | nil =>
      rw [col_list_data_single, split_commas_no_comma _ hq]
      simp
    | cons c2 cols2 =>
      rw [col_list_data_cons, split_commas_append _ _ hq,
        ih (by simp) (fun c3 hc3 => h c3 (by simp [List.mem_cons] at hc3 ⊢; tauto))]
      simp

theorem placeholders_count (n : Nat) :
    ((join_comma (List.replicate n "%s")).data).count '%' = n := by
  induction n with
  | zero => rfl
  | succ n ih =>
    cases n with
    | zero => rfl
    | succ m =>
      have hrep : List.replicate (m + 2) "%s" =
          "%s" :: List.replicate (m + 1) "%s" := rfl
      have hj : join_comma (List.replicate (m + 2) "%s") =
          "%s" ++ "," ++ join_comma (List.replicate (m + 1) "%s") := by
        rw [hrep]
        rfl
      rw [hj]
      simp only [String.data_append, List.count_append]
      rw [ih]
      have e1 : List.count '%' ("%s").data = 1 := by decide
      have e2 : List.count '%' (",").data = 0 := by decide
      rw [e1, e2]
      omega

theorem count_pct_col_list (cols : List String)
    (h : ∀ c ∈ cols, '%' ∉ c.data) :
    ((col_list cols).data).count '%' = 0 := by
  rw [List.count_eq_zero]
  intro hmem
  rcases mem_col_list_data cols '%' hmem with h2 | h2 | ⟨c, hc, h3⟩
  · exact absurd h2 (by decide)
  · exact absurd h2 (by decide)
  · exact h c hc h3

/-- The INSERT text decomposed around the column-list parentheses. -/
theorem insert_sql_data (table : String) (cols : List String) :
    (insert_sql table cols).data =
      "INSERT INTO ".data ++ (table.data ++ ([' '] ++ '(' ::
        ((col_list cols).data ++ ')' ::
          (" VALUES (".data ++ ((placeholders cols).data ++ [')']))))) := by
  simp only [insert_sql, String.data_append, List.append_assoc]
  rfl

theorem extract_cols_insert_sql (table : String) (cols : List String)
    (htab : '(' ∉ table.data) (hne : cols ≠ [])
    (hc : ∀ c ∈ cols, ',' ∉ c.data ∧ ')' ∉ c.data) :
    extract_cols (insert_sql table cols) = cols := by
  have hB : ')' ∉ (col_list cols).data := by
    intro hmem
    rcases mem_col_list_data cols ')' hmem with h2 | h2 | ⟨c, hcm, h3⟩
    · exact absurd h2 (by decide)
    · exact absurd h2 (by decide)
    · exact (hc c hcm).2 h3
  unfold extract_cols
  rw [insert_sql_data,
    drop_through_lparen_append _ _ (by decide),
    drop_through_lparen_append _ _ htab,
    drop_through_lparen_append _ _ (by decide)]
  show (split_commas (take_until_rparen ((col_list cols).data ++ ')' ::
    (" VALUES (".data ++ ((placeholders cols).data ++ [')']))))).map
      (fun g => String.mk (unquote g)) = cols
  rw [take_until_rparen_append _ _ hB,
    split_commas_col_list cols hne (fun c hcm => (hc c hcm).1),
    List.map_map]
  have hid : ∀ c : String,
      String.mk (unquote ('"' :: (c.data ++ ['"']))) = c := by
    intro c
    rw [unquote_quote]
  calc cols.map ((fun g => String.mk (unquote g)) ∘
        (fun c => '"' :: (c.data ++ ['"'])))
      = cols.map id := List.map_congr_left (fun c _ => hid c)
    _ = cols := List.map_id cols

/-- The same decomposition with appends only, for counting. -/
theorem insert_sql_data_flat (table : String) (cols : List String) :
    (insert_sql table cols).data =
      "INSERT INTO ".data ++ table.data ++ [' '] ++ ['('] ++
        (col_list cols).data ++ [')'] ++ " VALUES (".data ++
        (placeholders cols).data ++ [')'] := by
  rw [insert_sql_data]
  simp [List.append_assoc]

theorem insert_sql_count_pct (table : String) (cols : List String)
    (h1 : '%' ∉ table.data) (h2 : ∀ c ∈ cols, '%' ∉ c.data) :
    ((insert_sql table cols).data).count '%' = cols.length := by
  rw [insert_sql_data_flat]
  simp only [List.count_append]
  have e1 : List.count '%' ("INSERT INTO ".data) = 0 := by decide
  have e2 : List.count '%' [' '] = 0 := by decide
  have e3 : List.count '%' ['('] = 0 := by decide
  have e4 : List.count '%' [')'] = 0 := by decide
  have e5 : List.count '%' (" VALUES (".data) = 0 := by decide
  rw [e1, e2, e3, e4, e5, count_pct_col_list cols h2,
    List.count_eq_zero.mpr h1]
  simp only [placeholders]
  rw [placeholders_count cols.length]
  omega

/-- C8: on a non-empty row set the writer runs exactly one parameterized
statement over all the rows and then commits; the statement text names
all given columns explicitly and in order — an independent parse of the
text recovers exactly `cols` — and carries one `%s` placeholder per
column (so it never relies on the destination's default column order).
The side conditions only rule out names containing the delimiter
characters of the statement itself. -/
theorem insert_statement_names_columns (db : DB α) (table : String)
    (cols : List String) (rows : List (List α)) (hrows : rows ≠ [])
    (htab : '(' ∉ table.data ∧ '%' ∉ table.data) (hne : cols ≠ [])
    (hc : ∀ c ∈ cols, ',' ∉ c.data ∧ ')' ∉ c.data ∧ '%' ∉ c.data) :
    insert_table_data true db table cols rows =
      (.ok rows.length, appendRows db table rows,
        [.execMany (insert_sql table cols) rows, .commit]) ∧
    extract_cols (insert_sql table cols) = cols ∧
    ((insert_sql table cols).data).count '%' = cols.length := by
  have h : rows.isEmpty = false := by simp [List.isEmpty_iff, hrows]
  refine ⟨?_, ?_, ?_⟩
  · unfold insert_table_data
    simp [h]
  · exact extract_cols_insert_sql table cols htab.1 hne
      (fun c hcm => ⟨(hc c hcm).1, (hc c hcm).2.1⟩)
  · exact insert_sql_count_pct table cols htab.2
      (fun c hcm => (hc c hcm).2.2)

/-- Witness for C8 at the spec's concrete scenario (`orders`, columns
`id` and `amount`, two rows). -/
theorem insert_statement_names_columns_witness :
    insert_table_data true ([("orders", ⟨["id", "amount"], []⟩)] : DB Nat)
        "orders" ["id", "amount"] [[1, 10], [2, 5]] =
      (.ok 2,
        appendRows [("orders", ⟨["id", "amount"], []⟩)] "orders"
          [[1, 10], [2, 5]],
        [.execMany (insert_sql "orders" ["id", "amount"]) [[1, 10], [2, 5]],
         .commit]) ∧
    extract_cols (insert_sql "orders" ["id", "amount"]) = ["id", "amount"] ∧
    ((insert_sql "orders" ["id", "amount"]).data).count '%' = 2 :=
  insert_statement_names_columns [("orders", ⟨["id", "amount"], []⟩)]
    "orders" ["id", "amount"] [[1, 10], [2, 5]]
    (by decide) (by decide) (by decide) (by decide)

/-! ## Orchestrator runs -/

/-- Characterization of a fully successful run: both profiles resolve to
the same table, both connections open, the fetches produce equal column
lists, the engine accepts the batch.  `main` then succeeds with the
source row count, appends exactly the source rows to the target table,
and the trace is open/open, the insert events, close/close. -/
theorem run_success (w : World α) (p a1 a2 : String) (scfg tcfg : Sect)
    (tbl : String) (cols : List String) (srcRows priorRows : List (List α))
    (hs : load_db_config w.store (str_lower a1) = .ok scfg)
    (ht : load_db_config w.store (str_lower a2) = .ok tcfg)
    (hst : scfg.get "table" = tbl) (htt : tcfg.get "table" = tbl)
    (hc1 : w.srcConnOk = true) (hc2 : w.tgtConnOk = true)
    (hins : w.insertOk = true)
    (hfs : fetch_table_data w.srcDB tbl = .ok (cols, srcRows))
    (hft : fetch_table_data w.tgtDB tbl = .ok (cols, priorRows)) :
    main w [p, a1, a2] =
      (.ok srcRows.length,
       { w with tgtDB := appendRows w.tgtDB tbl srcRows },
       ([Ev.connAttempt .src true, Ev.connAttempt .tgt true] ++
         (insert_table_data true w.tgtDB tbl cols srcRows).2.2) ++
       [Ev.closeAttempt .src w.srcCloseOk, Ev.closeAttempt .tgt w.tgtCloseOk]) := by
  have hv : validate_schemas cols cols = .ok () := by
    simp [validate_schemas]
  simp only [main, try_block, hs, ht, hst, htt, hc1, hc2, hins, hfs, hft, hv]
  simp [teardown, close_events, insert_ok_fst, insert_ok_db]

/-- C1: for resolved profiles naming the same table, with identical
ordered column sets on both sides, a run over a source table of N rows
succeeds reporting `rowsInserted = N`, and the destination table
afterwards holds its prior rows followed by exactly the N source rows,
column-aligned (same column list) and in source order. -/
theorem copy_appends_source_rows (w : World α) (p a1 a2 : String)
    (scfg tcfg : Sect) (tbl : String) (cols : List String)
    (srcRows priorRows : List (List α))
    (hs : load_db_config w.store (str_lower a1) = .ok scfg)
    (ht : load_db_config w.store (str_lower a2) = .ok tcfg)
    (hst : scfg.get "table" = tbl) (htt : tcfg.get "table" = tbl)
    (hc1 : w.srcConnOk = true) (hc2 : w.tgtConnOk = true)
    (hins : w.insertOk = true)
    (hfs : fetch_table_data w.srcDB tbl = .ok (cols, srcRows))
    (hft : fetch_table_data w.tgtDB tbl = .ok (cols, priorRows)) :
    (main w [p, a1, a2]).1 = .ok srcRows.length ∧
    fetch_table_data ((main w [p, a1, a2]).2.1).tgtDB tbl =
      .ok (cols, priorRows ++ srcRows) := by
  rw [run_success w p a1 a2 scfg tcfg tbl cols srcRows priorRows
    hs ht hst htt hc1 hc2 hins hfs hft]
  exact ⟨rfl, fetch_appendRows w.tgtDB tbl cols priorRows srcRows hft⟩

/-- The spec's concrete scenario (§8): two environments, both naming
table `orders` with columns `id`, `amount`; the source holds two rows,
the target starts empty; all driver calls succeed. -/
def w_demo : World Nat :=
  ⟨[⟨"qa", [("host", "h1"), ("database", "db1"), ("user", "u"),
            ("password", "p"), ("table", "orders")]⟩,
    ⟨"stg", [("host", "h2"), ("database", "db2"), ("user", "u"),
             ("password", "p"), ("table", "orders")]⟩],
   true, true,
   [("orders", ⟨["id", "amount"], [[1, 999], [2, 450]]⟩)],
   [("orders", ⟨["id", "amount"], []⟩)],
   true, true, true⟩

/-- Witness for C1 at the spec's concrete scenario: two rows copied, the
target ends up holding exactly the two source rows. -/
theorem copy_appends_source_rows_witness :
    (main w_demo ["copy_table_data.py", "qa", "stg"]).1 = .ok 2 ∧
    fetch_table_data
        ((main w_demo ["copy_table_data.py", "qa", "stg"]).2.1).tgtDB
        "orders" =
      .ok (["id", "amount"], [[1, 999], [2, 450]]) :=
  copy_appends_source_rows w_demo "copy_table_data.py" "qa" "stg"
    ⟨"qa", [("host", "h1"), ("database", "db1"), ("user", "u"),
            ("password", "p"), ("table", "orders")]⟩
    ⟨"stg", [("host", "h2"), ("database", "db2"), ("user", "u"),
             ("password", "p"), ("table", "orders")]⟩
    "orders" ["id", "amount"] [[1, 999], [2, 450]] []
    rfl rfl rfl rfl rfl rfl rfl rfl rfl

/-- C5: whenever both profiles resolve but name different tables, the
run fails with `TableNameMismatch` (runtime-error exit status), the trace
contains no connection attempt whatsoever, and the world is untouched. -/
theorem table_mismatch_before_any_connection (w : World α) (p a1 a2 : String)
    (scfg tcfg : Sect)
    (hs : load_db_config w.store (str_lower a1) = .ok scfg)
    (ht : load_db_config w.store (str_lower a2) = .ok tcfg)
    (hne : scfg.get "table" ≠ tcfg.get "table") :
    (main w [p, a1, a2]).1 = .err .tableNameMismatch ∧
    exit_code (main w [p, a1, a2]).1 = 2 ∧
    (main w [p, a1, a2]).2.2.countP is_conn = 0 ∧
    (main w [p, a1, a2]).2.1 = w := by
  simp only [main, try_block, hs, ht]
  rw [if_pos hne]
  simp [teardown, close_events, exit_code, is_conn,
    List.countP_cons, List.countP_nil]

/-- Like `w_demo`, but the target profile names a different table. -/
def w_mismatch : World Nat :=
  ⟨[⟨"qa", [("host", "h1"), ("database", "db1"), ("user", "u"),
            ("password", "p"), ("table", "orders")]⟩,
    ⟨"stg", [("host", "h2"), ("database", "db2"), ("user", "u"),
             ("password", "p"), ("table", "invoices")]⟩],
   true, true,
   [("orders", ⟨["id", "amount"], [[1, 999], [2, 450]]⟩)],
   [("invoices", ⟨["id", "amount"], []⟩)],
   true, true, true⟩

/-- Witness for C5: mismatching table names fail with zero connection
attempts. -/
theorem table_mismatch_before_any_connection_witness :
    (main w_mismatch ["copy_table_data.py", "qa", "stg"]).1 =
      .err .tableNameMismatch ∧
    exit_code (main w_mismatch ["copy_table_data.py", "qa", "stg"]).1 = 2 ∧
    (main w_mismatch ["copy_table_data.py", "qa", "stg"]).2.2.countP
      is_conn = 0 ∧
    (main w_mismatch ["copy_table_data.py", "qa", "stg"]).2.1 = w_mismatch :=
  table_mismatch_before_any_connection w_mismatch "copy_table_data.py"
    "qa" "stg"
    ⟨"qa", [("host", "h1"), ("database", "db1"), ("user", "u"),
            ("password", "p"), ("table", "orders")]⟩
    ⟨"stg", [("host", "h2"), ("database", "db2"), ("user", "u"),
             ("password", "p"), ("table", "invoices")]⟩
    rfl rfl (by decide)

/-- C9: the copy is not idempotent.  Under the same success conditions,
running the copy a second time against the updated world succeeds again
and appends the source rows once more: the destination then holds
`prior ++ src ++ src`, which differs from the state after one run
whenever the source had any rows. -/
theorem copy_twice_duplicates_rows (w : World α) (p a1 a2 : String)
    (scfg tcfg : Sect) (tbl : String) (cols : List String)
    (srcRows priorRows : List (List α))
    (hs : load_db_config w.store (str_lower a1) = .ok scfg)
    (ht : load_db_config w.store (str_lower a2) = .ok tcfg)
    (hst : scfg.get "table" = tbl) (htt : tcfg.get "table" = tbl)
    (hc1 : w.srcConnOk = true) (hc2 : w.tgtConnOk = true)
    (hins : w.insertOk = true)
    (hfs : fetch_table_data w.srcDB tbl = .ok (cols, srcRows))
    (hft : fetch_table_data w.tgtDB tbl = .ok (cols, priorRows))
    (hrows : srcRows ≠ []) :
    (main ((main w [p, a1, a2]).2.1) [p, a1, a2]).1 = .ok srcRows.length ∧
    fetch_table_data
        ((main ((main w [p, a1, a2]).2.1) [p, a1, a2]).2.1).tgtDB tbl =
      .ok (cols, (priorRows ++ srcRows) ++ srcRows) ∧
    ((main ((main w [p, a1, a2]).2.1) [p, a1, a2]).2.1).tgtDB ≠
      ((main w [p, a1, a2]).2.1).tgtDB := by
  have h1 := run_success w p a1 a2 scfg tcfg tbl cols srcRows priorRows
    hs ht hst htt hc1 hc2 hins hfs hft
  have hft2 : fetch_table_data
      ({ w with tgtDB := appendRows w.tgtDB tbl srcRows } : World α).tgtDB tbl =
      .ok (cols, priorRows ++ srcRows) :=
    fetch_appendRows w.tgtDB tbl cols priorRows srcRows hft
  have h2 := run_success { w with tgtDB := appendRows w.tgtDB tbl srcRows }
    p a1 a2 scfg tcfg tbl cols srcRows (priorRows ++ srcRows)
    hs ht hst htt hc1 hc2 hins hfs hft2
  rw [h1]
  rw [h2]
  refine ⟨rfl, ?_, ?_⟩
  · exact fetch_appendRows _ tbl cols (priorRows ++ srcRows) srcRows hft2
  · intro heq
    have e1 : fetch_table_data
        ({ { w with tgtDB := appendRows w.tgtDB tbl srcRows } with
            tgtDB := appendRows
              ({ w with tgtDB := appendRows w.tgtDB tbl srcRows } :
                World α).tgtDB tbl srcRows } : World α).tgtDB tbl =
        .ok (cols, (priorRows ++ srcRows) ++ srcRows) :=
      fetch_appendRows _ tbl cols (priorRows ++ srcRows) srcRows hft2
    rw [heq] at e1
    rw [hft2] at e1
    have e2 : (priorRows ++ srcRows).length =
        ((priorRows ++ srcRows) ++ srcRows).length := by
      have e3 : priorRows ++ srcRows = (priorRows ++ srcRows) ++ srcRows := by
        simpa using e1
      rw [← e3]
    simp only [List.length_append] at e2
    have e4 : srcRows.length ≠ 0 := by
      simpa [List.length_eq_zero] using hrows
    omega

/-- Witness for C9: running the demo copy twice leaves the two source
rows twice in the target. -/
theorem copy_twice_duplicates_rows_witness :
    (main ((main w_demo ["copy_table_data.py", "qa", "stg"]).2.1)
       ["copy_table_data.py", "qa", "stg"]).1 = .ok 2 ∧
    fetch_table_data
        ((main ((main w_demo ["copy_table_data.py", "qa", "stg"]).2.1)
            ["copy_table_data.py", "qa", "stg"]).2.1).tgtDB "orders" =
      .ok (["id", "amount"], [[1, 999], [2, 450], [1, 999], [2, 450]]) ∧
    ((main ((main w_demo ["copy_table_data.py", "qa", "stg"]).2.1)
        ["copy_table_data.py", "qa", "stg"]).2.1).tgtDB ≠
      ((main w_demo ["copy_table_data.py", "qa", "stg"]).2.1).tgtDB :=
  copy_twice_duplicates_rows w_demo "copy_table_data.py" "qa" "stg"
    ⟨"qa", [("host", "h1"), ("database", "db1"), ("user", "u"),
            ("password", "p"), ("table", "orders")]⟩
    ⟨"stg", [("host", "h2"), ("database", "db2"), ("user", "u"),
             ("password", "p"), ("table", "orders")]⟩
    "orders" ["id", "amount"] [[1, 999], [2, 450]] []
    rfl rfl rfl rfl rfl rfl rfl rfl rfl (by decide)

/-- C10: when a failure strikes before a connection variable was ever
bound, the `finally:` teardown still runs to completion without raising —
the reference to the never-assigned handle is swallowed like any other
close error — and the process reports the original failure with the
runtime-error status.  Covers both the source connection failing (neither
handle bound) and the target connection failing (only the source handle
bound and closed). -/
theorem teardown_survives_unopened_connection (w : World α) (p a1 a2 : String)
    (scfg tcfg : Sect)
    (hs : load_db_config w.store (str_lower a1) = .ok scfg)
    (ht : load_db_config w.store (str_lower a2) = .ok tcfg)
    (htab : scfg.get "table" = tcfg.get "table") :
    (w.srcConnOk = false →
      main w [p, a1, a2] =
        (.err (.connectionFailed .src), w,
         [Ev.connAttempt .src false, Ev.closeUnbound .src,
          Ev.closeUnbound .tgt]) ∧
      exit_code (main w [p, a1, a2]).1 = 2) ∧
    (w.srcConnOk = true → w.tgtConnOk = false →
      main w [p, a1, a2] =
        (.err (.connectionFailed .tgt), w,
         [Ev.connAttempt .src true, Ev.connAttempt .tgt false,
          Ev.closeAttempt .src w.srcCloseOk, Ev.closeUnbound .tgt]) ∧
      exit_code (main w [p, a1, a2]).1 = 2) := by
  obtain ⟨st, sc, tc, sdb, tdb, io, c1, c2⟩ := w
  constructor
  · intro hsc
    simp only [main, try_block, hs, ht]
    rw [if_neg (by simp [htab])]
    simp only at hsc
    subst hsc
    simp [teardown, close_events, exit_code]
  · intro hsc htc
    simp only [main, try_block, hs, ht]
    rw [if_neg (by simp [htab])]
    simp only at hsc htc
    subst hsc
    subst htc
    simp [teardown, close_events, exit_code]

/-- Like `w_demo`, but the source connection attempt fails. -/
def w_noconn : World Nat :=
  { w_demo with srcConnOk := false }

/-- Witness for C10: with the source connection failing, the run exits
with status 2 reporting the connection failure, and both teardown slots
are visited without raising (both handles unbound). -/
theorem teardown_survives_unopened_connection_witness :
    main w_noconn ["copy_table_data.py", "qa", "stg"] =
      (.err (.connectionFailed .src), w_noconn,
       [Ev.connAttempt .src false, Ev.closeUnbound .src,
        Ev.closeUnbound .tgt]) ∧
    exit_code (main w_noconn ["copy_table_data.py", "qa", "stg"]).1 = 2 :=
  (teardown_survives_unopened_connection w_noconn "copy_table_data.py"
    "qa" "stg"
    ⟨"qa", [("host", "h1"), ("database", "db1"), ("user", "u"),
            ("password", "p"), ("table", "orders")]⟩
    ⟨"stg", [("host", "h2"), ("database", "db2"), ("user", "u"),
             ("password", "p"), ("table", "orders")]⟩
    rfl rfl rfl).1 rfl

/-! ## Counting connection events -/

@[simp] theorem beq_src_src : (Side.src == Side.src) = true := rfl

@[simp] theorem beq_src_tgt : (Side.src == Side.tgt) = false := rfl

@[simp] theorem beq_tgt_src : (Side.tgt == Side.src) = false := rfl

@[simp] theorem beq_tgt_tgt : (Side.tgt == Side.tgt) = true := rfl

theorem insert_events_countP (f : Bool) (db : DB α) (t : String)
    (c : List String) (r : List (List α)) (p : Ev α → Bool)
    (h1 : ∀ sql rows, p (.execMany sql rows) = false)
    (h2 : p .commit = false) (h3 : p .rollback = false) :
    (insert_table_data f db t c r).2.2.countP p = 0 := by
  unfold insert_table_data
  by_cases he : r.isEmpty <;> by_cases hf : f <;>
    simp [he, hf, List.countP_cons, List.countP_nil, h1, h2, h3]

@[simp] theorem insert_no_open (f : Bool) (db : DB α) (t : String)
    (c : List String) (r : List (List α)) (s : Side) :
    (insert_table_data f db t c r).2.2.countP (is_open s) = 0 :=
  insert_events_countP f db t c r _ (fun _ _ => rfl) rfl rfl

@[simp] theorem insert_no_close (f : Bool) (db : DB α) (t : String)
    (c : List String) (r : List (List α)) (s : Side) :
    (insert_table_data f db t c r).2.2.countP (is_close s) = 0 :=
  insert_events_countP f db t c r _ (fun _ _ => rfl) rfl rfl

@[simp] theorem insert_no_teardown (f : Bool) (db : DB α) (t : String)
    (c : List String) (r : List (List α)) (s : Side) :
    (insert_table_data f db t c r).2.2.countP (is_teardown_visit s) = 0 :=
  insert_events_countP f db t c r _ (fun _ _ => rfl) rfl rfl

/-- Event counts of the try-block: one successful open per bound side,
no close events, no teardown events. -/
theorem try_block_counts (w : World α) (se te : String) :
    ((try_block w se te).events.countP (is_open .src) =
      if (try_block w se te).srcBound then 1 else 0) ∧
    ((try_block w se te).events.countP (is_open .tgt) =
      if (try_block w se te).tgtBound then 1 else 0) ∧
    ((try_block w se te).events.countP (is_close .src) = 0) ∧
    ((try_block w se te).events.countP (is_close .tgt) = 0) ∧
    ((try_block w se te).events.countP (is_teardown_visit .src) = 0) ∧
    ((try_block w se te).events.countP (is_teardown_visit .tgt) = 0) := by
  unfold try_block
  repeat' split
  all_goals
    simp_all [List.countP_cons, List.countP_nil, List.countP_append,
      is_open, is_close, is_teardown_visit]

/-- Event counts of the teardown: one close call per bound side, exactly
one visit per side in every case, no opens. -/
theorem teardown_counts (sb tb c1 c2 : Bool) :
    ((teardown sb tb c1 c2 : List (Ev α)).countP (is_close .src) =
      if sb then 1 else 0) ∧
    ((teardown sb tb c1 c2 : List (Ev α)).countP (is_close .tgt) =
      if tb then 1 else 0) ∧
    ((teardown sb tb c1 c2 : List (Ev α)).countP (is_open .src) = 0) ∧
    ((teardown sb tb c1 c2 : List (Ev α)).countP (is_open .tgt) = 0) ∧
    ((teardown sb tb c1 c2 : List (Ev α)).countP
      (is_teardown_visit .src) = 1) ∧
    ((teardown sb tb c1 c2 : List (Ev α)).countP
      (is_teardown_visit .tgt) = 1) := by
  cases sb <;> cases tb <;>
    simp [teardown, close_events, is_open, is_close, is_teardown_visit,
      List.countP_cons, List.countP_nil, List.countP_append]

/-- With three arguments, the run's trace is the try-block events
followed by the teardown events. -/
theorem main_events (w : World α) (p a1 a2 : String) :
    (main w [p, a1, a2]).2.2 =
      (try_block w (str_lower a1) (str_lower a2)).events ++
        teardown (try_block w (str_lower a1) (str_lower a2)).srcBound
          (try_block w (str_lower a1) (str_lower a2)).tgtBound
          w.srcCloseOk w.tgtCloseOk := by
  simp only [main]
  cases hres : (try_block w (str_lower a1) (str_lower a2)).result <;>
    simp [hres]

/-- C7: on every exit path, (1) per side, the number of close calls in
the trace equals the number of successful opens, and a side is opened at
most once — every opened connection is closed exactly once; (2) in every
run that reaches the try/finally (three arguments), the teardown visits
both sides exactly once, whatever failed earlier and whether or not
either close succeeds — the two attempts are independently guarded; and
(3) the close-success oracles never change the outcome, so in particular
a destination-close failure after a successful write leaves the result
`ok`. -/
theorem every_open_connection_closed_once :
    (∀ (α : Type) (w : World α) (argv : List String),
      ((main w argv).2.2.countP (is_close .src) =
        (main w argv).2.2.countP (is_open .src)) ∧
      ((main w argv).2.2.countP (is_close .tgt) =
        (main w argv).2.2.countP (is_open .tgt)) ∧
      (main w argv).2.2.countP (is_open .src) ≤ 1 ∧
      (main w argv).2.2.countP (is_open .tgt) ≤ 1) ∧
    (∀ (α : Type) (w : World α) (p a1 a2 : String),
      (main w [p, a1, a2]).2.2.countP (is_teardown_visit .src) = 1 ∧
      (main w [p, a1, a2]).2.2.countP (is_teardown_visit .tgt) = 1) ∧
    (∀ (α : Type) (w : World α) (argv : List String) (c1 c2 : Bool),
      (main { w with srcCloseOk := c1, tgtCloseOk := c2 } argv).1 =
        (main w argv).1) := by
  refine ⟨?_, ?_, ?_⟩
  · intro α w argv
    rcases argv with _ | ⟨p, _ | ⟨x1, _ | ⟨x2, _ | ⟨x3, rest⟩⟩⟩⟩
    · simp [main]
    · simp [main]
    · simp [main]
    · obtain ⟨o1, o2, cl1, cl2, t1, t2⟩ :=
        try_block_counts w (str_lower x1) (str_lower x2)
      obtain ⟨d1, d2, d3, d4, d5, d6⟩ := teardown_counts (α := α)
        (try_block w (str_lower x1) (str_lower x2)).srcBound
        (try_block w (str_lower x1) (str_lower x2)).tgtBound
        w.srcCloseOk w.tgtCloseOk
      rw [main_events, List.countP_append, List.countP_append,
        List.countP_append, List.countP_append,
        o1, o2, cl1, cl2, d1, d2, d3, d4]
      refine ⟨by omega, by omega, ?_, ?_⟩
      · cases (try_block w (str_lower x1) (str_lower x2)).srcBound <;> simp
      · cases (try_block w (str_lower x1) (str_lower x2)).tgtBound <;> simp
    · simp [main]
  · intro α w p a1 a2
    obtain ⟨o1, o2, cl1, cl2, t1, t2⟩ :=
      try_block_counts w (str_lower a1) (str_lower a2)
    obtain ⟨d1, d2, d3, d4, d5, d6⟩ := teardown_counts (α := α)
      (try_block w (str_lower a1) (str_lower a2)).srcBound
      (try_block w (str_lower a1) (str_lower a2)).tgtBound
      w.srcCloseOk w.tgtCloseOk
    rw [main_events, List.countP_append, List.countP_append, t1, t2, d5, d6]
    omega
  · intro α w argv c1 c2
    rcases argv with _ | ⟨p, _ | ⟨x1, _ | ⟨x2, _ | ⟨x3, rest⟩⟩⟩⟩
    · rfl
    · rfl
    · rfl
    · have hr : try_block { w with srcCloseOk := c1, tgtCloseOk := c2 }
          (str_lower x1) (str_lower x2) =
          try_block w (str_lower x1) (str_lower x2) := rfl
      simp only [main, hr]
      cases hres : (try_block w (str_lower x1) (str_lower x2)).result <;>
        simp [hres]
    · rfl

end CopyTable
